import Mathlib

/-!
# imageRotationNPP

A shallow embedding of `src/imageRotationNPP.cpp`: the command line glue of `main`,
the version printing of `printfNPPinfo`, and the calls into the NPP library.  The
library itself (helper_string, helper_cuda, ImagesCPU/ImagesNPP, npp) is not part of
the program; its answers are supplied by a `World`, and every call `main` makes is
recorded, with its arguments, in a trace.
-/

namespace ImageRotationNPP

/-! ## std::string operations used by `main` -/

/-- Index of the last occurrence of `c` in a character list, `none` for `npos`. -/
def rfindList (c : Char) : List Char → Option Nat
  | [] => none
  | x :: xs =>
    match rfindList c xs with
    | some i => some (i + 1)
    | none => if x = c then some 0 else none

/-- The call `s.rfind(c)` of std::string; `none` stands for `std::string::npos`. -/
def rfind (s : String) (c : Char) : Option Nat :=
  rfindList c s.data

/-- The call `s.substr(pos, n)` of std::string, for `pos` within the string. -/
def substr (s : String) (pos n : Nat) : String :=
  ⟨(s.data.drop pos).take n⟩

/-- Lines 130-139 of `main`: the result file name computed from the input file name. -/
def defaultResultFilename (sFilename : String) : String :=
  let sResultFilename := sFilename
  let sResultFilename :=
    match rfind sResultFilename '.' with
    | some dot => substr sResultFilename 0 dot
    | none => sResultFilename
  sResultFilename ++ "_rotate.pgm"

/-! ## Machine integers -/

/-- The conversion `(int)u` of an `unsigned int` value (two's complement, 32 bits). -/
def toInt (u : Nat) : Int :=
  if u % 2 ^ 32 < 2 ^ 31 then ((u % 2 ^ 32 : Nat) : Int) else ((u % 2 ^ 32 : Nat) : Int) - 2 ^ 32

/-- The conversion of an `int` value to `unsigned int` (reduction modulo 2^32). -/
def toUInt (i : Int) : Nat :=
  (i % 2 ^ 32).toNat

/-! ## Data passed to the library -/

/-- The struct `NppiSize`. -/
structure NppiSize where
  width : Int
  height : Int
  deriving DecidableEq

/-- The struct `NppiPoint`. -/
structure NppiPoint where
  x : Int
  y : Int
  deriving DecidableEq

/-- The struct `NppiRect`. -/
structure NppiRect where
  x : Int
  y : Int
  width : Int
  height : Int
  deriving DecidableEq

/-- The struct `NppLibraryVersion`. -/
structure NppLibraryVersion where
  major : Int
  minor : Int
  build : Int
  deriving DecidableEq

/-- The interpolation modes of NPP of which `main` uses `NPPI_INTER_NN`. -/
inductive NppiInterpolationMode where
  | NPPI_INTER_NN
  | NPPI_INTER_LINEAR
  | NPPI_INTER_CUBIC
  deriving DecidableEq

/-- The size of an `npp::Image`: `unsigned int` width and height. -/
structure Size where
  nWidth : Nat
  nHeight : Nat
  deriving DecidableEq

/-- A host image `npp::ImageCPU_8u_C1`: its size, and the address and row pitch of its
pixel buffer.  The pixels themselves are only ever touched by the library. -/
structure ImageCPU_8u_C1 where
  size : Size
  data : Nat
  pitch : Nat
  deriving DecidableEq

/-- A device image `npp::ImageNPP_8u_C1`: its size, and the device address and row pitch
of its pixel buffer. -/
structure ImageNPP_8u_C1 where
  size : Size
  data : Nat
  pitch : Nat
  deriving DecidableEq

/-- What `main` can catch: an `npp::Exception` with its message, or anything else. -/
inductive Exn where
  | npp (message : String)
  | other
  deriving DecidableEq

/-- The macros `EXIT_SUCCESS` and `EXIT_FAILURE` of <cstdlib>. -/
def EXIT_SUCCESS : Int := 0

/-- See `EXIT_SUCCESS`. -/
def EXIT_FAILURE : Int := 1

/-- The rotation angle of line 170, `double angle = 45.0`. -/
def angle : Rat := 45

/-- The arguments of the call `nppiRotate_8u_C1R(...)` of lines 184-189. -/
structure RotateArgs where
  pSrc : Nat
  nSrcStep : Nat
  oSrcROI : NppiRect
  pDst : Nat
  nDstStep : Nat
  oDstROI : NppiRect
  nAngle : Rat
  oRotationCenter : NppiPoint
  eInterpolation : NppiInterpolationMode
  deriving DecidableEq

/-- Everything outside the program that a run of `main` depends on: the command line as
seen through helper_string, the file system as seen through `std::ifstream`, and the
outcome of every library call, as a function of the arguments of the call.  A library
call either returns or raises a C++ exception; one that can raise answers with
`Except Exn`. -/
structure World where
  /-- The string `argv[0]`. -/
  argv0 : String
  /-- The call `findCudaDevice(argc, argv)`: the chosen device id. -/
  findCudaDevice : Except Exn Int
  /-- The version that `nppGetLibVersion()` points to. -/
  nppGetLibVersion : NppLibraryVersion
  /-- The value `cudaDriverGetVersion` stores. -/
  cudaDriverGetVersion : Int
  /-- The value `cudaRuntimeGetVersion` stores. -/
  cudaRuntimeGetVersion : Int
  /-- The call `checkCudaCapabilities(major, minor)`. -/
  checkCudaCapabilities : Int → Int → Bool
  /-- The call `checkCmdLineFlag(argc, argv, flag)`. -/
  checkCmdLineFlag : String → Bool
  /-- The pointer that `getCmdLineArgumentString(argc, argv, "input", &filePath)` stores
  in `filePath`; `none` is the null pointer, which line 96 tests for. -/
  inputArgument : Option String
  /-- The C string that `getCmdLineArgumentString(argc, argv, "output", &outputFilePath)`
  stores in `outputFilePath`.  Line 146 assigns it to a `std::string` without a test, so
  it is a string in every run that has a defined behaviour. -/
  outputArgument : String
  /-- The call `sdkFindFilePath(name, argv[0])`; `none` is the null pointer. -/
  sdkFindFilePath : String → String → Option String
  /-- Whether `infile.good()` holds after `std::ifstream infile(name)`. -/
  infileGood : String → Bool
  /-- The call `npp::loadImage(name, oHostSrc)`: the image that `oHostSrc` then holds. -/
  loadImage : String → Except Exn ImageCPU_8u_C1
  /-- The constructor `ImageNPP_8u_C1(const ImageCPU_8u_C1 &)`: the address and pitch of
  the device buffer it allocates and fills. -/
  uploadImage : ImageCPU_8u_C1 → Except Exn (Nat × Nat)
  /-- The call `NPP_CHECK_NPP(nppiGetRotateBound(oSrcROI, angle, &oBoundingBox))`: the
  rectangle stored in `oBoundingBox`, or the exception of `NPP_CHECK_NPP`. -/
  nppiGetRotateBound : NppiRect → Rat → Except Exn NppiRect
  /-- The constructor `ImageNPP_8u_C1(unsigned int, unsigned int)`: the address and
  pitch of the device buffer it allocates. -/
  newImageNPP : Nat → Nat → Except Exn (Nat × Nat)
  /-- The call `NPP_CHECK_NPP(nppiRotate_8u_C1R(...))`. -/
  nppiRotate_8u_C1R : RotateArgs → Except Exn Unit
  /-- The constructor `ImageCPU_8u_C1(const Size &)`: the address and pitch of the host
  buffer it allocates. -/
  newImageCPU : Size → Except Exn (Nat × Nat)
  /-- The call `oDeviceDst.copyTo(pData, nPitch)`. -/
  copyTo : ImageNPP_8u_C1 → Nat → Nat → Except Exn Unit
  /-- The call `saveImage(name, image)`. -/
  saveImage : String → ImageCPU_8u_C1 → Except Exn Unit

/-- One observable action of a run: a line printed or a call into a library, with the
arguments of the call. -/
inductive Event where
  | printStarting (argv0 : String)
  | findCudaDevice
  | printLibVersion (major minor build : Int)
  | printDriverVersion (major minor : Int)
  | printRuntimeVersion (major minor : Int)
  | checkCudaCapabilities (major minor : Int)
  | checkCmdLineFlag (flag : String)
  | getCmdLineArgumentString (flag : String)
  | sdkFindFilePath (name argv0 : String)
  | openInfile (name : String)
  | printOpened (name : String)
  | printUnableToOpen (name : String)
  | loadImage (name : String)
  | uploadImage (host : ImageCPU_8u_C1)
  | nppiGetRotateBound (oSrcROI : NppiRect) (nAngle : Rat)
  | newImageNPP (nWidth nHeight : Nat)
  | nppiRotate_8u_C1R (args : RotateArgs)
  | newImageCPU (size : Size)
  | copyTo (src : ImageNPP_8u_C1) (pData nPitch : Nat)
  | saveImage (name : String) (image : ImageCPU_8u_C1)
  | printSaved (name : String)
  | nppiFree (data : Nat)
  | printProgramError (message : String)
  | printUnknownError
  | printAborting
  deriving DecidableEq

/-- How a piece of code ends: it falls through with a value, it calls `exit`, or it
leaves by an exception. -/
inductive Outcome (α : Type) where
  | value (a : α)
  | exit (status : Int)
  | thrown (e : Exn)
  deriving DecidableEq

/-- A piece of code run to its end: the events it produced, in order, and its outcome. -/
structure Act (α : Type) where
  trace : List Event
  outcome : Outcome α

namespace Act

/-- Sequencing: the second part runs only when the first falls through. -/
def bind {α β : Type} (x : Act α) (f : α → Act β) : Act β :=
  match x.outcome with
  | .value a => ⟨x.trace ++ (f a).trace, (f a).outcome⟩
  | .exit status => ⟨x.trace, .exit status⟩
  | .thrown e => ⟨x.trace, .thrown e⟩

instance : Monad Act where
  pure a := ⟨[], .value a⟩
  bind := Act.bind

/-- Produce one event. -/
def emit (e : Event) : Act Unit :=
  ⟨[e], .value ()⟩

/-- A library call: the event of the call, then its value or its exception. -/
def call {α : Type} (e : Event) (r : Except Exn α) : Act α :=
  match r with
  | .ok a => ⟨[e], .value a⟩
  | .error x => ⟨[e], .thrown x⟩

/-- The call `exit(status)`. -/
def exit {α : Type} (status : Int) : Act α :=
  ⟨[], .exit status⟩

end Act

open Act

/-- The function `printfNPPinfo` (lines 50-69). -/
def printfNPPinfo (w : World) : Act Bool := do
  let libVer := w.nppGetLibVersion
  emit (.printLibVersion libVer.major libVer.minor libVer.build)
  let driverVersion := w.cudaDriverGetVersion
  let runtimeVersion := w.cudaRuntimeGetVersion
  emit (.printDriverVersion (Int.tdiv driverVersion 1000)
    (Int.tdiv (Int.tmod driverVersion 100) 10))
  emit (.printRuntimeVersion (Int.tdiv runtimeVersion 1000)
    (Int.tdiv (Int.tmod runtimeVersion 100) 10))
  emit (.checkCudaCapabilities 1 0)
  let bVal := w.checkCudaCapabilities 1 0
  return bVal

/-- Lines 87-94 of `main`: the pointer `filePath`. -/
def filePath (w : World) : Act (Option String) := do
  emit (.checkCmdLineFlag "input")
  if w.checkCmdLineFlag "input" then
    emit (.getCmdLineArgumentString "input")
    return w.inputArgument
  else
    emit (.sdkFindFilePath "Lena.pgm" w.argv0)
    return w.sdkFindFilePath "Lena.pgm" w.argv0

/-- Lines 87-103 of `main`: the string `sFilename`. -/
def sFilename (w : World) : Act String := do
  let filePath ← filePath w
  match filePath with
  | some p => return p
  | none => return "Lena.pgm"

/-- Lines 107-123 of `main`: the value of `file_errors` after the open test. -/
def fileCheck (w : World) (sFilename : String) : Act Int := do
  let file_errors : Int := 0
  emit (.openInfile sFilename)
  if w.infileGood sFilename then
    emit (.printOpened sFilename)
    return 0
  else
    emit (.printUnableToOpen sFilename)
    return file_errors + 1

/-- Lines 130-147 of `main`: the string `sResultFilename`. -/
def sResultFilename (w : World) (sFilename : String) : Act String := do
  let sResultFilename := defaultResultFilename sFilename
  emit (.checkCmdLineFlag "output")
  if w.checkCmdLineFlag "output" then
    emit (.getCmdLineArgumentString "output")
    return w.outputArgument
  else
    return sResultFilename

/-- Lines 149-201 of `main`: load, upload, bound, rotate, download, save, exit.  An
image built by a constructor has the size the constructor was given; the copy
constructor of line 155 gives the device image the size of the host image. -/
def rotateAndSave (w : World) (sFilename sResultFilename : String) : Act Unit := do
  let oHostSrc ← call (.loadImage sFilename) (w.loadImage sFilename)
  let buf ← call (.uploadImage oHostSrc) (w.uploadImage oHostSrc)
  let oDeviceSrc : ImageNPP_8u_C1 := ⟨oHostSrc.size, buf.1, buf.2⟩
  let oSrcSize : NppiSize := ⟨toInt oDeviceSrc.size.nWidth, toInt oDeviceSrc.size.nHeight⟩
  let oSrcOffset : NppiPoint := ⟨0, 0⟩
  let oSrcROI : NppiRect := ⟨oSrcOffset.x, oSrcOffset.y, oSrcSize.width, oSrcSize.height⟩
  let oBoundingBox ←
    call (.nppiGetRotateBound oSrcROI angle) (w.nppiGetRotateBound oSrcROI angle)
  let dstWidth := toUInt oBoundingBox.width
  let dstHeight := toUInt oBoundingBox.height
  let buf ← call (.newImageNPP dstWidth dstHeight) (w.newImageNPP dstWidth dstHeight)
  let oDeviceDst : ImageNPP_8u_C1 := ⟨⟨dstWidth, dstHeight⟩, buf.1, buf.2⟩
  let oRotationCenter : NppiPoint := ⟨Int.tdiv oSrcSize.width 2, Int.tdiv oSrcSize.height 2⟩
  let args : RotateArgs :=
    ⟨oDeviceSrc.data, oDeviceSrc.pitch, oSrcROI, oDeviceDst.data, oDeviceDst.pitch,
      oBoundingBox, angle, oRotationCenter, .NPPI_INTER_NN⟩
  call (.nppiRotate_8u_C1R args) (w.nppiRotate_8u_C1R args)
  let buf ← call (.newImageCPU oDeviceDst.size) (w.newImageCPU oDeviceDst.size)
  let oHostDst : ImageCPU_8u_C1 := ⟨oDeviceDst.size, buf.1, buf.2⟩
  call (.copyTo oDeviceDst oHostDst.data oHostDst.pitch)
    (w.copyTo oDeviceDst oHostDst.data oHostDst.pitch)
  call (.saveImage sResultFilename oHostDst) (w.saveImage sResultFilename oHostDst)
  emit (.printSaved sResultFilename)
  emit (.nppiFree oDeviceSrc.data)
  emit (.nppiFree oDeviceDst.data)
  exit EXIT_SUCCESS

/-- The `try` block of `main` (lines 75-202). -/
def tryBlock (w : World) : Act Unit := do
  let _ ← call .findCudaDevice w.findCudaDevice
  if (← printfNPPinfo w) == false then
    exit EXIT_SUCCESS
  let sFilename ← sFilename w
  let file_errors ← fileCheck w sFilename
  if file_errors > 0 then
    exit EXIT_FAILURE
  let sResultFilename ← sResultFilename w sFilename
  rotateAndSave w sFilename sResultFilename

/-- A finished run of the program: what it did, and its exit status. -/
structure Run where
  trace : List Event
  status : Int
  deriving DecidableEq

/-- The function `main` (lines 71-221): the `try` block with its two handlers. -/
def main (w : World) : Run :=
  let start := [Event.printStarting w.argv0]
  let body := tryBlock w
  match body.outcome with
  | .exit status => ⟨start ++ body.trace, status⟩
  | .thrown (.npp message) =>
    ⟨start ++ body.trace ++ [.printProgramError message, .printAborting], EXIT_FAILURE⟩
  | .thrown .other =>
    ⟨start ++ body.trace ++ [.printUnknownError, .printAborting], EXIT_FAILURE⟩
  | .value _ => ⟨start ++ body.trace, 0⟩

/-! ## Reading a trace -/

/-- The events that read the "input" or "output" flag. -/
def Event.parsesFlag : Event → Bool
  | .checkCmdLineFlag _ => true
  | .getCmdLineArgumentString _ => true
  | _ => false

/-- The events that open the input file. -/
def Event.opensInput : Event → Bool
  | .openInfile _ => true
  | .loadImage _ => true
  | _ => false

/-- The events that load, allocate, transform, copy or write an image. -/
def Event.isImageCall : Event → Bool
  | .loadImage _ => true
  | .uploadImage _ => true
  | .nppiGetRotateBound _ _ => true
  | .newImageNPP _ _ => true
  | .nppiRotate_8u_C1R _ => true
  | .newImageCPU _ => true
  | .copyTo _ _ _ => true
  | .saveImage _ _ => true
  | .nppiFree _ => true
  | _ => false

/-- The event of the line "Saved image: ...". -/
def Event.printsSaved : Event → Bool
  | .printSaved _ => true
  | _ => false

/-- The exception an answer carries, if it is one. -/
def errorOf {α : Type} : Except Exn α → Option Exn
  | .ok _ => none
  | .error x => some x

/-- The exception with which the world answers the call an event records: `none` when
the call returns, and for every event that is not a call that can throw. -/
def World.raises (w : World) : Event → Option Exn
  | .findCudaDevice => errorOf w.findCudaDevice
  | .loadImage name => errorOf (w.loadImage name)
  | .uploadImage host => errorOf (w.uploadImage host)
  | .nppiGetRotateBound oSrcROI nAngle => errorOf (w.nppiGetRotateBound oSrcROI nAngle)
  | .newImageNPP nWidth nHeight => errorOf (w.newImageNPP nWidth nHeight)
  | .nppiRotate_8u_C1R args => errorOf (w.nppiRotate_8u_C1R args)
  | .newImageCPU size => errorOf (w.newImageCPU size)
  | .copyTo src pData nPitch => errorOf (w.copyTo src pData nPitch)
  | .saveImage name image => errorOf (w.saveImage name image)
  | _ => none

/-- A run without flags on a 512 x 512 image, every library call succeeding. -/
def sampleWorld : World where
  argv0 := "./imageRotationNPP"
  findCudaDevice := .ok 0
  nppGetLibVersion := ⟨12, 2, 1⟩
  cudaDriverGetVersion := 12020
  cudaRuntimeGetVersion := 11080
  checkCudaCapabilities := fun _ _ => true
  checkCmdLineFlag := fun _ => false
  inputArgument := none
  outputArgument := ""
  sdkFindFilePath := fun _ _ => some "data/Lena.pgm"
  infileGood := fun _ => true
  loadImage := fun _ => .ok ⟨⟨512, 512⟩, 4096, 512⟩
  uploadImage := fun _ => .ok (65536, 512)
  nppiGetRotateBound := fun _ _ => .ok ⟨-106, -106, 725, 725⟩
  newImageNPP := fun _ _ => .ok (131072, 1024)
  nppiRotate_8u_C1R := fun _ => .ok ()
  newImageCPU := fun _ => .ok (8192, 725)
  copyTo := fun _ _ _ => .ok ()
  saveImage := fun _ _ => .ok ()

/-- The run `imageRotationNPP --input=in.pgm --output=out.pgm`. -/
def flagWorld : World :=
  { sampleWorld with
    checkCmdLineFlag := fun flag => flag == "input" || flag == "output"
    inputArgument := some "in.pgm"
    outputArgument := "out.pgm" }

/-- A run whose input file cannot be opened. -/
def missingFileWorld : World :=
  { sampleWorld with infileGood := fun _ => false }

/-- A run on a device that fails the capability check. -/
def oldDeviceWorld : World :=
  { sampleWorld with checkCudaCapabilities := fun _ _ => false }

/-- The run `imageRotationNPP --input=scan`, on an input file name without a '.'. -/
def plainNameWorld : World :=
  { sampleWorld with
    checkCmdLineFlag := fun flag => flag == "input"
    inputArgument := some "scan" }

/-! ## Lemmas on the sequencing of actions -/

namespace Act

@[simp] theorem pure_eq {α : Type} (a : α) : (pure a : Act α) = ⟨[], .value a⟩ := rfl

@[simp] theorem mk_value_bind {α β : Type} (t : List Event) (a : α) (f : α → Act β) :
    ((⟨t, .value a⟩ : Act α) >>= f) = ⟨t ++ (f a).trace, (f a).outcome⟩ := rfl

@[simp] theorem mk_exit_bind {α β : Type} (t : List Event) (c : Int) (f : α → Act β) :
    ((⟨t, .exit c⟩ : Act α) >>= f) = ⟨t, .exit c⟩ := rfl

@[simp] theorem mk_thrown_bind {α β : Type} (t : List Event) (e : Exn) (f : α → Act β) :
    ((⟨t, .thrown e⟩ : Act α) >>= f) = ⟨t, .thrown e⟩ := rfl

@[simp] theorem call_ok {α : Type} (e : Event) (a : α) :
    call e (.ok a) = ⟨[e], .value a⟩ := rfl

@[simp] theorem call_error {α : Type} (e : Event) (x : Exn) :
    (call e (.error x) : Act α) = ⟨[e], .thrown x⟩ := rfl

theorem call_bind {α β : Type} (e : Event) (r : Except Exn α) (f : α → Act β) :
    (call e r >>= f) =
      match r with
      | .ok a => ⟨e :: (f a).trace, (f a).outcome⟩
      | .error x => ⟨[e], .thrown x⟩ := by
  cases r <;> rfl

end Act

/-! ## Lemmas on the string operations -/

theorem rfindList_eq_none (c : Char) (s : List Char) : rfindList c s = none ↔ c ∉ s := by
  induction s with
  | nil => simp [rfindList]
  | cons x xs ih =>
    unfold rfindList
    cases h : rfindList c xs with
    | none =>
      have hx : c ∉ xs := ih.mp h
      by_cases hxc : x = c
      · simp [hxc]
      · have hcx : ¬ c = x := fun h => hxc h.symm
        simp [hxc, hcx, hx]
    | some i =>
      have hx : c ∈ xs := by
        by_contra hn
        rw [ih.mpr hn] at h
        cases h
      simp [hx]

theorem rfindList_append_cons (c : Char) (p t : List Char) (ht : c ∉ t) :
    rfindList c (p ++ c :: t) = some p.length := by
  induction p with
  | nil => simp [rfindList, (rfindList_eq_none c t).mpr ht]
  | cons x xs ih => simp [rfindList, ih]

theorem rfindList_eq_some (c : Char) (s : List Char) (i : Nat) (h : rfindList c s = some i) :
    ∃ p t, s = p ++ c :: t ∧ c ∉ t ∧ p.length = i := by
  induction s generalizing i with
  | nil => simp [rfindList] at h
  | cons x xs ih =>
    unfold rfindList at h
    cases hxs : rfindList c xs with
    | none =>
      rw [hxs] at h
      by_cases hxc : x = c
      · simp [hxc] at h
        exact ⟨[], xs, by simp [hxc], (rfindList_eq_none c xs).mp hxs, by simp [h]⟩
      · simp [hxc] at h
    | some j =>
      rw [hxs] at h
      simp at h
      obtain ⟨p, t, hs, ht, hp⟩ := ih j hxs
      exact ⟨x :: p, t, by simp [hs], ht, by simp [hp, h]⟩

theorem defaultResultFilename_of_dot (s : String) (p t : List Char)
    (hs : s.data = p ++ '.' :: t) (ht : '.' ∉ t) :
    defaultResultFilename s = String.mk p ++ "_rotate.pgm" := by
  simp [defaultResultFilename, rfind, substr, hs, rfindList_append_cons '.' p t ht]

theorem defaultResultFilename_of_no_dot (s : String) (hs : '.' ∉ s.data) :
    defaultResultFilename s = s ++ "_rotate.pgm" := by
  simp [defaultResultFilename, rfind, (rfindList_eq_none '.' s.data).mpr hs]

theorem version_pair (major minor : Int) (h1 : 0 ≤ major) (h2 : 0 ≤ minor) (h3 : minor ≤ 9) :
    Int.tdiv (1000 * major + 10 * minor) 1000 = major ∧
    Int.tdiv (Int.tmod (1000 * major + 10 * minor) 100) 10 = minor := by
  have hv : 0 ≤ 1000 * major + 10 * minor := by omega
  rw [Int.tdiv_eq_ediv hv (by norm_num), Int.tmod_eq_emod hv (by norm_num)]
  have hm : 0 ≤ (1000 * major + 10 * minor) % 100 := by omega
  rw [Int.tdiv_eq_ediv hm (by norm_num)]
  omega

/-! ## The shape of the `try` block -/

theorem printfNPPinfo_eq (w : World) :
    printfNPPinfo w =
      ⟨[.printLibVersion w.nppGetLibVersion.major w.nppGetLibVersion.minor
          w.nppGetLibVersion.build,
        .printDriverVersion (Int.tdiv w.cudaDriverGetVersion 1000)
          (Int.tdiv (Int.tmod w.cudaDriverGetVersion 100) 10),
        .printRuntimeVersion (Int.tdiv w.cudaRuntimeGetVersion 1000)
          (Int.tdiv (Int.tmod w.cudaRuntimeGetVersion 100) 10),
        .checkCudaCapabilities 1 0], .value (w.checkCudaCapabilities 1 0)⟩ := by
  simp [printfNPPinfo, emit]

theorem filePath_eq (w : World) :
    filePath w =
      ⟨[.checkCmdLineFlag "input",
          if w.checkCmdLineFlag "input" = true then .getCmdLineArgumentString "input"
          else .sdkFindFilePath "Lena.pgm" w.argv0],
        .value (if w.checkCmdLineFlag "input" = true then w.inputArgument
          else w.sdkFindFilePath "Lena.pgm" w.argv0)⟩ := by
  cases h : w.checkCmdLineFlag "input" <;> simp [filePath, emit, h]

theorem sFilename_eq (w : World) :
    sFilename w =
      ⟨[.checkCmdLineFlag "input",
          if w.checkCmdLineFlag "input" = true then .getCmdLineArgumentString "input"
          else .sdkFindFilePath "Lena.pgm" w.argv0],
        .value ((if w.checkCmdLineFlag "input" = true then w.inputArgument
          else w.sdkFindFilePath "Lena.pgm" w.argv0).getD "Lena.pgm")⟩ := by
  unfold sFilename
  rw [filePath_eq]
  cases h : (if w.checkCmdLineFlag "input" = true then w.inputArgument
          else w.sdkFindFilePath "Lena.pgm" w.argv0) <;> simp

theorem fileCheck_eq (w : World) (s : String) :
    fileCheck w s =
      ⟨[.openInfile s, if w.infileGood s = true then .printOpened s else .printUnableToOpen s],
        .value (if w.infileGood s = true then 0 else 1)⟩ := by
  cases h : w.infileGood s <;> simp [fileCheck, emit, h]

theorem sResultFilename_eq (w : World) (s : String) :
    sResultFilename w s =
      ⟨.checkCmdLineFlag "output" ::
          (if w.checkCmdLineFlag "output" = true then [.getCmdLineArgumentString "output"]
          else []),
        .value (if w.checkCmdLineFlag "output" = true then w.outputArgument
          else defaultResultFilename s)⟩ := by
  cases h : w.checkCmdLineFlag "output" <;> simp [sResultFilename, emit, h]

theorem tryBlock_error (w : World) (x : Exn) (hdev : w.findCudaDevice = .error x) :
    tryBlock w = ⟨[.findCudaDevice], .thrown x⟩ := by
  simp [tryBlock, hdev]

theorem tryBlock_incapable (w : World) (d : Int) (hdev : w.findCudaDevice = .ok d)
    (hcap : w.checkCudaCapabilities 1 0 = false) :
    tryBlock w = ⟨.findCudaDevice :: (printfNPPinfo w).trace, .exit EXIT_SUCCESS⟩ := by
  simp [tryBlock, hdev, printfNPPinfo_eq, hcap, Act.exit]

theorem tryBlock_unreadable (w : World) (d : Int) (name : String)
    (hdev : w.findCudaDevice = .ok d) (hcap : w.checkCudaCapabilities 1 0 = true)
    (hname : (sFilename w).outcome = .value name) (hgood : w.infileGood name = false) :
    tryBlock w =
      ⟨.findCudaDevice :: ((printfNPPinfo w).trace ++ (sFilename w).trace ++
          [.openInfile name, .printUnableToOpen name]), .exit EXIT_FAILURE⟩ := by
  rw [sFilename_eq] at hname
  simp only [Outcome.value.injEq] at hname
  simp [tryBlock, hdev, printfNPPinfo_eq, hcap, Act.exit, sFilename_eq, fileCheck_eq, hname, hgood]

theorem tryBlock_readable (w : World) (d : Int) (name : String)
    (hdev : w.findCudaDevice = .ok d) (hcap : w.checkCudaCapabilities 1 0 = true)
    (hname : (sFilename w).outcome = .value name) (hgood : w.infileGood name = true) :
    tryBlock w =
      ⟨.findCudaDevice :: ((printfNPPinfo w).trace ++ (sFilename w).trace ++
          [.openInfile name, .printOpened name] ++ (sResultFilename w name).trace ++
          (rotateAndSave w name
            (if w.checkCmdLineFlag "output" = true then w.outputArgument
              else defaultResultFilename name)).trace),
        (rotateAndSave w name
            (if w.checkCmdLineFlag "output" = true then w.outputArgument
              else defaultResultFilename name)).outcome⟩ := by
  rw [sFilename_eq] at hname
  simp only [Outcome.value.injEq] at hname
  simp [tryBlock, hdev, printfNPPinfo_eq, hcap, Act.exit, sFilename_eq, fileCheck_eq, hname, hgood,
    sResultFilename_eq]

theorem rotateAndSave_complete (w : World) (s r : String)
    (h : ∀ e, (rotateAndSave w s r).outcome ≠ .thrown e) :
    ∃ (oHostSrc : ImageCPU_8u_C1) (src : Nat × Nat) (oBoundingBox : NppiRect)
        (dst host : Nat × Nat),
      w.loadImage s = .ok oHostSrc ∧
      w.nppiGetRotateBound
        ⟨0, 0, toInt oHostSrc.size.nWidth, toInt oHostSrc.size.nHeight⟩ angle = .ok oBoundingBox ∧
      rotateAndSave w s r =
        ⟨[.loadImage s,
          .uploadImage oHostSrc,
          .nppiGetRotateBound ⟨0, 0, toInt oHostSrc.size.nWidth, toInt oHostSrc.size.nHeight⟩ angle,
          .newImageNPP (toUInt oBoundingBox.width) (toUInt oBoundingBox.height),
          .nppiRotate_8u_C1R
            ⟨src.1, src.2, ⟨0, 0, toInt oHostSrc.size.nWidth, toInt oHostSrc.size.nHeight⟩,
              dst.1, dst.2, oBoundingBox, angle,
              ⟨Int.tdiv (toInt oHostSrc.size.nWidth) 2, Int.tdiv (toInt oHostSrc.size.nHeight) 2⟩,
              .NPPI_INTER_NN⟩,
          .newImageCPU ⟨toUInt oBoundingBox.width, toUInt oBoundingBox.height⟩,
          .copyTo ⟨⟨toUInt oBoundingBox.width, toUInt oBoundingBox.height⟩, dst.1, dst.2⟩
            host.1 host.2,
          .saveImage r ⟨⟨toUInt oBoundingBox.width, toUInt oBoundingBox.height⟩, host.1, host.2⟩,
          .printSaved r,
          .nppiFree src.1,
          .nppiFree dst.1], .exit EXIT_SUCCESS⟩ := by
  rcases h1 : w.loadImage s with x | oHostSrc
  · exact absurd (by simp [rotateAndSave, h1]) (h x)
  rcases h2 : w.uploadImage oHostSrc with x | src
  · exact absurd (by simp [rotateAndSave, h1, h2]) (h x)
  rcases h3 : w.nppiGetRotateBound
      ⟨0, 0, toInt oHostSrc.size.nWidth, toInt oHostSrc.size.nHeight⟩ angle with x | oBoundingBox
  · exact absurd (by simp [rotateAndSave, h1, h2, h3]) (h x)
  rcases h4 : w.newImageNPP (toUInt oBoundingBox.width) (toUInt oBoundingBox.height) with x | dst
  · exact absurd (by simp [rotateAndSave, h1, h2, h3, h4]) (h x)
  rcases h5 : w.nppiRotate_8u_C1R
      ⟨src.1, src.2, ⟨0, 0, toInt oHostSrc.size.nWidth, toInt oHostSrc.size.nHeight⟩,
        dst.1, dst.2, oBoundingBox, angle,
        ⟨Int.tdiv (toInt oHostSrc.size.nWidth) 2, Int.tdiv (toInt oHostSrc.size.nHeight) 2⟩,
        .NPPI_INTER_NN⟩ with x | u
  · exact absurd (by simp [rotateAndSave, h1, h2, h3, h4, h5]) (h x)
  rcases h6 : w.newImageCPU ⟨toUInt oBoundingBox.width, toUInt oBoundingBox.height⟩ with x | host
  · exact absurd (by simp [rotateAndSave, h1, h2, h3, h4, h5, h6]) (h x)
  rcases h7 : w.copyTo ⟨⟨toUInt oBoundingBox.width, toUInt oBoundingBox.height⟩, dst.1, dst.2⟩
      host.1 host.2 with x | u
  · exact absurd (by simp [rotateAndSave, h1, h2, h3, h4, h5, h6, h7]) (h x)
  rcases h8 : w.saveImage r
      ⟨⟨toUInt oBoundingBox.width, toUInt oBoundingBox.height⟩, host.1, host.2⟩ with x | u
  · exact absurd (by simp [rotateAndSave, h1, h2, h3, h4, h5, h6, h7, h8]) (h x)
  exact ⟨oHostSrc, src, oBoundingBox, dst, host, rfl, h3, by
    simp [rotateAndSave, h1, h2, h3, h4, h5, h6, h7, h8, emit, Act.exit]⟩

theorem rotateAndSave_head (w : World) (s r : String) :
    ∃ t, (rotateAndSave w s r).trace = .loadImage s :: t := by
  simp only [rotateAndSave, Act.call_bind]
  split <;> exact ⟨_, rfl⟩

theorem rotateAndSave_outcome (w : World) (s r : String) :
    (rotateAndSave w s r).outcome = .exit EXIT_SUCCESS ∨
      ∃ e, (rotateAndSave w s r).outcome = .thrown e := by
  simp only [rotateAndSave, Act.call_bind, emit, Act.exit, Act.mk_value_bind]
  repeat' split
  all_goals simp

theorem rotateAndSave_parameters (w : World) (s r : String) :
    (∀ f, Event.loadImage f ∈ (rotateAndSave w s r).trace → f = s) ∧
    (∀ roi a, Event.nppiGetRotateBound roi a ∈ (rotateAndSave w s r).trace →
      ∃ oHostSrc, w.loadImage s = .ok oHostSrc ∧
        roi = ⟨0, 0, toInt oHostSrc.size.nWidth, toInt oHostSrc.size.nHeight⟩ ∧ a = angle) ∧
    (∀ n m, Event.newImageNPP n m ∈ (rotateAndSave w s r).trace →
      ∃ oHostSrc oBoundingBox, w.loadImage s = .ok oHostSrc ∧
        w.nppiGetRotateBound ⟨0, 0, toInt oHostSrc.size.nWidth, toInt oHostSrc.size.nHeight⟩
          angle = .ok oBoundingBox ∧
        n = toUInt oBoundingBox.width ∧ m = toUInt oBoundingBox.height) ∧
    (∀ args, Event.nppiRotate_8u_C1R args ∈ (rotateAndSave w s r).trace →
      ∃ oHostSrc, w.loadImage s = .ok oHostSrc ∧
        w.nppiGetRotateBound ⟨0, 0, toInt oHostSrc.size.nWidth, toInt oHostSrc.size.nHeight⟩
          angle = .ok args.oDstROI ∧
        args.oSrcROI = ⟨0, 0, toInt oHostSrc.size.nWidth, toInt oHostSrc.size.nHeight⟩ ∧
        args.nAngle = angle ∧
        args.oRotationCenter =
          ⟨Int.tdiv (toInt oHostSrc.size.nWidth) 2, Int.tdiv (toInt oHostSrc.size.nHeight) 2⟩ ∧
        args.eInterpolation = .NPPI_INTER_NN ∧
        Event.nppiGetRotateBound args.oSrcROI angle ∈ (rotateAndSave w s r).trace ∧
        Event.newImageNPP (toUInt args.oDstROI.width) (toUInt args.oDstROI.height)
          ∈ (rotateAndSave w s r).trace) ∧
    (∀ f image, Event.saveImage f image ∈ (rotateAndSave w s r).trace →
      f = r ∧ Event.newImageNPP image.size.nWidth image.size.nHeight
        ∈ (rotateAndSave w s r).trace) := by
  simp only [rotateAndSave, Act.call_bind, emit, Act.exit, Act.mk_value_bind]
  repeat' split
  all_goals simp_all

theorem tryBlock_cases (w : World) :
    (∃ x, w.findCudaDevice = .error x ∧ tryBlock w = ⟨[.findCudaDevice], .thrown x⟩) ∨
    (∃ d, w.findCudaDevice = .ok d ∧ w.checkCudaCapabilities 1 0 = false ∧
      tryBlock w = ⟨.findCudaDevice :: (printfNPPinfo w).trace, .exit EXIT_SUCCESS⟩) ∨
    (∃ d name, w.findCudaDevice = .ok d ∧ w.checkCudaCapabilities 1 0 = true ∧
      (sFilename w).outcome = .value name ∧ w.infileGood name = false ∧
      tryBlock w =
        ⟨.findCudaDevice :: ((printfNPPinfo w).trace ++ (sFilename w).trace ++
            [.openInfile name, .printUnableToOpen name]), .exit EXIT_FAILURE⟩) ∨
    (∃ d name, w.findCudaDevice = .ok d ∧ w.checkCudaCapabilities 1 0 = true ∧
      (sFilename w).outcome = .value name ∧ w.infileGood name = true ∧
      tryBlock w =
        ⟨.findCudaDevice :: ((printfNPPinfo w).trace ++ (sFilename w).trace ++
            [.openInfile name, .printOpened name] ++ (sResultFilename w name).trace ++
            (rotateAndSave w name
              (if w.checkCmdLineFlag "output" = true then w.outputArgument
                else defaultResultFilename name)).trace),
          (rotateAndSave w name
              (if w.checkCmdLineFlag "output" = true then w.outputArgument
                else defaultResultFilename name)).outcome⟩) := by
  rcases hdev : w.findCudaDevice with x | d
  · exact Or.inl ⟨x, rfl, tryBlock_error w x hdev⟩
  · cases hcap : w.checkCudaCapabilities 1 0
    · exact Or.inr (Or.inl ⟨d, rfl, rfl, tryBlock_incapable w d hdev hcap⟩)
    · have hname : (sFilename w).outcome = .value ((if w.checkCmdLineFlag "input" = true
          then w.inputArgument else w.sdkFindFilePath "Lena.pgm" w.argv0).getD "Lena.pgm") := by
        rw [sFilename_eq]
      cases hgood : w.infileGood ((if w.checkCmdLineFlag "input" = true
          then w.inputArgument else w.sdkFindFilePath "Lena.pgm" w.argv0).getD "Lena.pgm")
      · exact Or.inr (Or.inr (Or.inl
          ⟨d, _, rfl, rfl, hname, hgood, tryBlock_unreadable w d _ hdev hcap hname hgood⟩))
      · exact Or.inr (Or.inr (Or.inr
          ⟨d, _, rfl, rfl, hname, hgood, tryBlock_readable w d _ hdev hcap hname hgood⟩))

theorem setup_events (w : World) (name : String) :
    ∀ ev ∈ (printfNPPinfo w).trace ++ (sFilename w).trace ++
      [.openInfile name, .printOpened name] ++ (sResultFilename w name).trace,
      ev.isImageCall = false ∧ ev.printsSaved = false := by
  rw [printfNPPinfo_eq, sFilename_eq, sResultFilename_eq]
  cases hin : w.checkCmdLineFlag "input" <;> cases hout : w.checkCmdLineFlag "output" <;>
    simp [Event.isImageCall, Event.printsSaved]

theorem main_trace (w : World) :
    ∃ report, (main w).trace = .printStarting w.argv0 :: ((tryBlock w).trace ++ report) ∧
      ∀ ev ∈ report, ev.isImageCall = false ∧ ev.printsSaved = false := by
  unfold main
  rcases h : (tryBlock w).outcome with a | c | e
  · exact ⟨[], by simp [h], by simp⟩
  · exact ⟨[], by simp [h], by simp⟩
  · cases e with
    | npp message =>
      exact ⟨[.printProgramError message, .printAborting], by simp [h],
        by simp [Event.isImageCall, Event.printsSaved]⟩
    | other =>
      exact ⟨[.printUnknownError, .printAborting], by simp [h],
        by simp [Event.isImageCall, Event.printsSaved]⟩

theorem mem_main_pipeline (w : World) (ev : Event) (hev : ev ∈ (main w).trace)
    (hkind : ev.isImageCall = true ∨ ev.printsSaved = true) :
    ∃ d name, w.findCudaDevice = .ok d ∧ w.checkCudaCapabilities 1 0 = true ∧
      (sFilename w).outcome = .value name ∧ w.infileGood name = true ∧
      ev ∈ (rotateAndSave w name
        (if w.checkCmdLineFlag "output" = true then w.outputArgument
          else defaultResultFilename name)).trace ∧
      (tryBlock w).outcome = (rotateAndSave w name
        (if w.checkCmdLineFlag "output" = true then w.outputArgument
          else defaultResultFilename name)).outcome := by
  have hnot : ∀ e : Event, (e.isImageCall = false ∧ e.printsSaved = false) → e ≠ ev := by
    intro e he heq
    subst heq
    rcases hkind with hk | hk
    · rw [he.1] at hk; cases hk
    · rw [he.2] at hk; cases hk
  obtain ⟨report, htrace, hreport⟩ := main_trace w
  rw [htrace] at hev
  rcases List.mem_cons.mp hev with h | h
  · exact absurd h.symm (hnot _ ⟨rfl, rfl⟩)
  rcases List.mem_append.mp h with h | h
  swap
  · exact absurd rfl (hnot ev (hreport ev h))
  rcases tryBlock_cases w with ⟨x, _, ht⟩ | ⟨d, _, _, ht⟩ | ⟨d, name, _, _, _, _, ht⟩ |
      ⟨d, name, hdev, hcap, hname, hgood, ht⟩
  · rw [ht] at h
    simp at h
    exact absurd h.symm (hnot _ ⟨rfl, rfl⟩)
  · rw [ht, printfNPPinfo_eq] at h
    simp at h
    rcases h with h | h | h | h | h <;> exact absurd h.symm (hnot _ ⟨rfl, rfl⟩)
  · rw [ht] at h
    rcases List.mem_cons.mp h with h | h
    · exact absurd h.symm (hnot _ ⟨rfl, rfl⟩)
    rcases List.mem_append.mp h with h | h
    · have hs := setup_events w name ev (by
        simp only [List.mem_append] at h ⊢
        rcases h with h | h
        · exact Or.inl (Or.inl (Or.inl h))
        · exact Or.inl (Or.inl (Or.inr h)))
      exact absurd rfl (hnot ev hs)
    · simp at h
      rcases h with h | h <;> exact absurd h.symm (hnot _ ⟨rfl, rfl⟩)
  · refine ⟨d, name, hdev, hcap, hname, hgood, ?_, by rw [ht]⟩
    rw [ht] at h
    rcases List.mem_cons.mp h with h | h
    · exact absurd h.symm (hnot _ ⟨rfl, rfl⟩)
    rcases List.mem_append.mp h with h | h
    · exact absurd rfl (hnot ev (setup_events w name ev h))
    · exact h

theorem toInt_of_lt (n : Nat) (h : n < 2 ^ 31) : toInt n = (n : Int) := by
  unfold toInt
  have h1 : n % 2 ^ 32 = n := Nat.mod_eq_of_lt (by omega)
  rw [h1, if_pos h]

theorem toUInt_of_nonneg (i : Int) (h0 : 0 ≤ i) (h1 : i < 2 ^ 31) :
    ((toUInt i : Nat) : Int) = i := by
  unfold toUInt
  have h2 : i % 2 ^ 32 = i := Int.emod_eq_of_lt h0 (by omega)
  rw [h2]
  exact Int.toNat_of_nonneg h0

theorem main_status (w : World) :
    (∀ c, (tryBlock w).outcome = .exit c → (main w).status = c) ∧
    (∀ e, (tryBlock w).outcome = .thrown e → (main w).status = EXIT_FAILURE) := by
  constructor
  · intro c h
    simp [main, h]
  · intro e h
    cases e <;> simp [main, h]

theorem mem_main_of_rotate (w : World) (d : Int) (name : String)
    (hdev : w.findCudaDevice = .ok d) (hcap : w.checkCudaCapabilities 1 0 = true)
    (hname : (sFilename w).outcome = .value name) (hgood : w.infileGood name = true)
    (ev : Event)
    (hev : ev ∈ (rotateAndSave w name
      (if w.checkCmdLineFlag "output" = true then w.outputArgument
        else defaultResultFilename name)).trace) :
    ev ∈ (main w).trace := by
  obtain ⟨report, htrace, _⟩ := main_trace w
  rw [htrace, tryBlock_readable w d name hdev hcap hname hgood]
  simp only [List.mem_cons, List.mem_append]
  exact Or.inr (Or.inl (Or.inr (Or.inr hev)))

theorem rotateAndSave_source (w : World) (s r : String) (e : Exn)
    (h : (rotateAndSave w s r).outcome = .thrown e) :
    ∃ ev ∈ (rotateAndSave w s r).trace, w.raises ev = some e := by
  revert h
  simp only [rotateAndSave, Act.call_bind, emit, Act.exit, Act.mk_value_bind]
  repeat' split
  all_goals simp_all [World.raises, errorOf]

theorem tryBlock_source (w : World) (e : Exn) (h : (tryBlock w).outcome = .thrown e) :
    ∃ ev ∈ (main w).trace, w.raises ev = some e := by
  obtain ⟨report, htrace, _⟩ := main_trace w
  rcases tryBlock_cases w with ⟨x, hdev, ht⟩ | ⟨d, _, _, ht⟩ | ⟨d, name, _, _, _, _, ht⟩ |
      ⟨d, name, hdev, hcap, hname, hgood, ht⟩
  · rw [ht] at h
    cases h
    exact ⟨.findCudaDevice, by rw [htrace, ht]; simp, by simp [World.raises, errorOf, hdev]⟩
  · rw [ht] at h
    cases h
  · rw [ht] at h
    cases h
  · rw [ht] at h
    obtain ⟨ev, hmem, hraise⟩ := rotateAndSave_source w name _ e h
    exact ⟨ev, mem_main_of_rotate w d name hdev hcap hname hgood ev hmem, hraise⟩

theorem main_complete (w : World) (name : String)
    (hname : (sFilename w).outcome = .value name)
    (hcap : w.checkCudaCapabilities 1 0 = true) (hgood : w.infileGood name = true)
    (hquiet : ∀ ev ∈ (main w).trace, w.raises ev = none) :
    ∃ (oHostSrc : ImageCPU_8u_C1) (src : Nat × Nat) (oBoundingBox : NppiRect)
        (dst host : Nat × Nat),
      w.loadImage name = .ok oHostSrc ∧
      w.nppiGetRotateBound
        ⟨0, 0, toInt oHostSrc.size.nWidth, toInt oHostSrc.size.nHeight⟩ angle
          = .ok oBoundingBox ∧
      (main w).status = EXIT_SUCCESS ∧
      (main w).trace =
        (.printStarting w.argv0 :: .findCudaDevice ::
          ((printfNPPinfo w).trace ++ (sFilename w).trace ++
            [.openInfile name, .printOpened name] ++ (sResultFilename w name).trace)) ++
        [.loadImage name,
          .uploadImage oHostSrc,
          .nppiGetRotateBound
            ⟨0, 0, toInt oHostSrc.size.nWidth, toInt oHostSrc.size.nHeight⟩ angle,
          .newImageNPP (toUInt oBoundingBox.width) (toUInt oBoundingBox.height),
          .nppiRotate_8u_C1R
            ⟨src.1, src.2, ⟨0, 0, toInt oHostSrc.size.nWidth, toInt oHostSrc.size.nHeight⟩,
              dst.1, dst.2, oBoundingBox, angle,
              ⟨Int.tdiv (toInt oHostSrc.size.nWidth) 2,
                Int.tdiv (toInt oHostSrc.size.nHeight) 2⟩,
              .NPPI_INTER_NN⟩,
          .newImageCPU ⟨toUInt oBoundingBox.width, toUInt oBoundingBox.height⟩,
          .copyTo ⟨⟨toUInt oBoundingBox.width, toUInt oBoundingBox.height⟩, dst.1, dst.2⟩
            host.1 host.2,
          .saveImage
            (if w.checkCmdLineFlag "output" = true then w.outputArgument
              else defaultResultFilename name)
            ⟨⟨toUInt oBoundingBox.width, toUInt oBoundingBox.height⟩, host.1, host.2⟩,
          .printSaved
            (if w.checkCmdLineFlag "output" = true then w.outputArgument
              else defaultResultFilename name),
          .nppiFree src.1,
          .nppiFree dst.1] := by
  have hnothrow : ∀ e, (tryBlock w).outcome ≠ .thrown e := by
    intro e he
    obtain ⟨ev, hmem, hraise⟩ := tryBlock_source w e he
    rw [hquiet ev hmem] at hraise
    cases hraise
  rcases tryBlock_cases w with ⟨x, _, ht⟩ | ⟨d, _, hc, _⟩ | ⟨d, name', _, _, hname', hgood', _⟩ |
      ⟨d, name', hdev, _, hname', _, ht⟩
  · exact absurd (by rw [ht]) (hnothrow x)
  · rw [hcap] at hc
    cases hc
  · rw [hname] at hname'
    cases hname'
    rw [hgood] at hgood'
    cases hgood'
  · rw [hname] at hname'
    cases hname'
    have hrot : ∀ e, (rotateAndSave w name
        (if w.checkCmdLineFlag "output" = true then w.outputArgument
          else defaultResultFilename name)).outcome ≠ .thrown e := by
      intro e he
      exact hnothrow e (by rw [ht]; exact he)
    obtain ⟨oHostSrc, src, oBoundingBox, dst, host, hload, hbound, hshape⟩ :=
      rotateAndSave_complete w name _ hrot
    rw [hshape] at ht
    refine ⟨oHostSrc, src, oBoundingBox, dst, host, hload, hbound,
      (main_status w).1 _ (by rw [ht]), ?_⟩
    simp [main, ht]

/-! ## The claims -/

/-- C8: without the "output" flag the result file name is the input file name cut
strictly before its last '.', or the whole input file name when it has no '.', followed
by "_rotate.pgm"; "Lena.pgm" gives "Lena_rotate.pgm", "a.b.pgm" gives "a.b_rotate.pgm",
and "./dir.v2/Lena" gives "./dir_rotate.pgm". -/
theorem default_output_name (s : String) :
    (∀ w : World, w.checkCmdLineFlag "output" = false →
      (sResultFilename w s).outcome = .value (defaultResultFilename s)) ∧
    (∀ p t : List Char, s.data = p ++ '.' :: t → '.' ∉ t →
      defaultResultFilename s = String.mk p ++ "_rotate.pgm") ∧
    ('.' ∉ s.data → defaultResultFilename s = s ++ "_rotate.pgm") ∧
    defaultResultFilename "Lena.pgm" = "Lena_rotate.pgm" ∧
    defaultResultFilename "a.b.pgm" = "a.b_rotate.pgm" ∧
    defaultResultFilename "./dir.v2/Lena" = "./dir_rotate.pgm" := by
  refine ⟨?_, defaultResultFilename_of_dot s, defaultResultFilename_of_no_dot s, ?_, ?_, ?_⟩
  · intro w hw
    simp [sResultFilename, emit, hw]
  · decide
  · decide
  · decide

/-- Witness of C8 on the sample run and the name "archive.tar.gz", whose last '.' is the
one before "gz". -/
theorem default_output_name_witness :
    (sResultFilename sampleWorld "archive.tar.gz").outcome
        = .value (defaultResultFilename "archive.tar.gz") ∧
      defaultResultFilename "archive.tar.gz" = "archive.tar" ++ "_rotate.pgm" :=
  ⟨(default_output_name "archive.tar.gz").1 sampleWorld (by decide),
    (default_output_name "archive.tar.gz").2.1 "archive.tar".data "gz".data (by decide)
      (by decide)⟩

/-- C9: the result file name derived without the "output" flag ends with "_rotate.pgm"
and is never the input file name itself. -/
theorem default_output_differs (s : String) :
    "_rotate.pgm".data <:+ (defaultResultFilename s).data ∧ defaultResultFilename s ≠ s := by
  cases h : rfindList '.' s.data with
  | none =>
    have hs := defaultResultFilename_of_no_dot s ((rfindList_eq_none '.' s.data).mp h)
    rw [hs]
    constructor
    · rw [String.data_append]
      exact List.suffix_append _ _
    · intro heq
      have hlen := congrArg String.length heq
      simp [String.length_append] at hlen
      revert hlen
      decide
  | some i =>
    obtain ⟨p, t, hst, ht, _⟩ := rfindList_eq_some '.' s.data i h
    have hs := defaultResultFilename_of_dot s p t hst ht
    rw [hs]
    constructor
    · rw [String.data_append]
      exact List.suffix_append _ _
    · intro heq
      have hdata := congrArg String.data heq
      rw [String.data_append, hst] at hdata
      have hcons := List.append_cancel_left hdata
      have hhead := List.head_eq_of_cons_eq hcons
      revert hhead
      decide

/-- C10: for a version integer 1000 * major + 10 * minor with major >= 0 and
0 <= minor <= 9, `printfNPPinfo` prints the pair (major, minor), computed as
v / 1000 and (v % 100) / 10 with truncating division, for the driver version and in the
same way for the runtime version. -/
theorem version_decoding (w : World) (major minor rmajor rminor : Int)
    (hmajor : 0 ≤ major) (hminor : 0 ≤ minor ∧ minor ≤ 9)
    (hdriver : w.cudaDriverGetVersion = 1000 * major + 10 * minor)
    (hrmajor : 0 ≤ rmajor) (hrminor : 0 ≤ rminor ∧ rminor ≤ 9)
    (hruntime : w.cudaRuntimeGetVersion = 1000 * rmajor + 10 * rminor) :
    (printfNPPinfo w).trace =
      [.printLibVersion w.nppGetLibVersion.major w.nppGetLibVersion.minor
          w.nppGetLibVersion.build,
        .printDriverVersion major minor,
        .printRuntimeVersion rmajor rminor,
        .checkCudaCapabilities 1 0] := by
  have hd := version_pair major minor hmajor hminor.1 hminor.2
  have hr := version_pair rmajor rminor hrmajor hrminor.1 hrminor.2
  simp [printfNPPinfo, emit, hdriver, hruntime, hd.1, hd.2, hr.1, hr.2]

/-- Witness of C10: driver version 12020 prints as 12.2, runtime version 11080 as 11.8. -/
theorem version_decoding_witness :
    (printfNPPinfo sampleWorld).trace =
      [.printLibVersion 12 2 1, .printDriverVersion 12 2, .printRuntimeVersion 11 8,
        .checkCudaCapabilities 1 0] :=
  version_decoding sampleWorld 12 2 11 8 (by decide) (by decide) (by decide) (by decide)
    (by decide) (by decide)

/-- C5: with the "input" flag present and a non-null argument string the input file
name is that string; with the flag absent it is the path `sdkFindFilePath("Lena.pgm",
argv[0])` returns; and whenever the path pointer is null (flag absent and search
failed, or flag present without a string) it is the literal "Lena.pgm". -/
theorem input_filename_selection (w : World) :
    (∀ s, w.checkCmdLineFlag "input" = true → w.inputArgument = some s →
      (sFilename w).outcome = .value s) ∧
    (∀ p, w.checkCmdLineFlag "input" = false → w.sdkFindFilePath "Lena.pgm" w.argv0 = some p →
      (sFilename w).outcome = .value p) ∧
    ((filePath w).outcome = .value none → (sFilename w).outcome = .value "Lena.pgm") ∧
    (w.checkCmdLineFlag "input" = false → w.sdkFindFilePath "Lena.pgm" w.argv0 = none →
      (filePath w).outcome = .value none) ∧
    (w.checkCmdLineFlag "input" = true → w.inputArgument = none →
      (filePath w).outcome = .value none) := by
  refine ⟨?_, ?_, ?_, ?_, ?_⟩
  · intro s hflag harg
    simp [sFilename, filePath, emit, hflag, harg]
  · intro p hflag hfind
    simp [sFilename, filePath, emit, hflag, hfind]
  · by_cases hflag : w.checkCmdLineFlag "input" = true
    · cases harg : w.inputArgument <;> simp [sFilename, filePath, emit, hflag, harg]
    · cases hfind : w.sdkFindFilePath "Lena.pgm" w.argv0 <;>
        simp [sFilename, filePath, emit, hflag, hfind]
  · intro hflag hfind
    simp [filePath, emit, hflag, hfind]
  · intro hflag harg
    simp [filePath, emit, hflag, harg]

/-- Witness of C5: the flag with a string, the default search, and a null pointer. -/
theorem input_filename_selection_witness :
    (sFilename flagWorld).outcome = .value "in.pgm" ∧
      (sFilename sampleWorld).outcome = .value "data/Lena.pgm" ∧
      (sFilename { sampleWorld with sdkFindFilePath := fun _ _ => none }).outcome
        = .value "Lena.pgm" :=
  ⟨(input_filename_selection flagWorld).1 "in.pgm" (by decide) (by decide),
    (input_filename_selection sampleWorld).2.1 "data/Lena.pgm" (by decide) (by decide),
    (input_filename_selection { sampleWorld with sdkFindFilePath := fun _ _ => none }).2.2.1
      (by decide)⟩

/-- C4: `printfNPPinfo` returns exactly the result of `checkCudaCapabilities(1, 0)`;
when that is false, `main` exits at once with `EXIT_SUCCESS`: after the device is found
and the versions are printed nothing more happens, so no flag is parsed, no input file
is opened, no image routine is called and no output is written. -/
theorem capability_probe (w : World) :
    (printfNPPinfo w).outcome = .value (w.checkCudaCapabilities 1 0) ∧
    (∀ d, w.findCudaDevice = .ok d → (printfNPPinfo w).outcome = .value false →
      (main w).status = EXIT_SUCCESS ∧
      (main w).trace = .printStarting w.argv0 :: .findCudaDevice :: (printfNPPinfo w).trace ∧
      ∀ ev ∈ (main w).trace,
        ev.parsesFlag = false ∧ ev.opensInput = false ∧ ev.isImageCall = false) := by
  refine ⟨by rw [printfNPPinfo_eq], ?_⟩
  intro d hdev hfalse
  have hcap : w.checkCudaCapabilities 1 0 = false := by
    rw [printfNPPinfo_eq] at hfalse
    simpa using hfalse
  have ht := tryBlock_incapable w d hdev hcap
  have hstatus : (main w).status = EXIT_SUCCESS := (main_status w).1 _ (by rw [ht])
  have htrace : (main w).trace
      = .printStarting w.argv0 :: .findCudaDevice :: (printfNPPinfo w).trace := by
    simp [main, ht]
  refine ⟨hstatus, htrace, ?_⟩
  rw [htrace, printfNPPinfo_eq]
  simp [Event.parsesFlag, Event.opensInput, Event.isImageCall]

/-- Witness of C4: the run on a device that fails the capability check. -/
theorem capability_probe_witness :
    oldDeviceWorld.findCudaDevice = .ok 0 ∧
      (printfNPPinfo oldDeviceWorld).outcome = .value false ∧
      (main oldDeviceWorld).status = EXIT_SUCCESS ∧
      (main oldDeviceWorld).trace =
        .printStarting oldDeviceWorld.argv0 :: .findCudaDevice ::
          (printfNPPinfo oldDeviceWorld).trace ∧
      ∀ ev ∈ (main oldDeviceWorld).trace,
        ev.parsesFlag = false ∧ ev.opensInput = false ∧ ev.isImageCall = false :=
  ⟨rfl, by decide, (capability_probe oldDeviceWorld).2 0 rfl (by decide)⟩

/-- C2: in a run that reaches the open test with input file name `name`: if the file
cannot be opened, `main` prints the "unable to open" line as its last action and exits
with `EXIT_FAILURE`, and no image is loaded, allocated, rotated or written; if it can
be opened, `file_errors` is 0 and the run goes on to load the image from `name`. -/
theorem input_file_check (w : World) (d : Int) (name : String)
    (hdev : w.findCudaDevice = .ok d) (hcap : w.checkCudaCapabilities 1 0 = true)
    (hname : (sFilename w).outcome = .value name) :
    (w.infileGood name = false →
      (main w).status = EXIT_FAILURE ∧
      (main w).trace.getLast? = some (.printUnableToOpen name) ∧
      ∀ ev ∈ (main w).trace, ev.isImageCall = false) ∧
    (w.infileGood name = true →
      (fileCheck w name).outcome = .value 0 ∧
      Event.printOpened name ∈ (main w).trace ∧
      Event.loadImage name ∈ (main w).trace) := by
  constructor
  · intro hgood
    have ht := tryBlock_unreadable w d name hdev hcap hname hgood
    refine ⟨(main_status w).1 _ (by rw [ht]), ?_, ?_⟩
    · have htrace : (main w).trace =
          (.printStarting w.argv0 :: .findCudaDevice ::
            ((printfNPPinfo w).trace ++ (sFilename w).trace ++ [.openInfile name])) ++
            [.printUnableToOpen name] := by
        simp [main, ht]
      rw [htrace, List.getLast?_concat]
    · intro ev hev
      cases himg : ev.isImageCall with
      | false => rfl
      | true =>
        exfalso
        obtain ⟨_, name', _, _, hname', hgood', _, _⟩ :=
          mem_main_pipeline w ev hev (Or.inl himg)
        rw [hname] at hname'
        cases hname'
        rw [hgood] at hgood'
        cases hgood'
  · intro hgood
    refine ⟨by rw [fileCheck_eq]; simp [hgood], ?_, ?_⟩
    · obtain ⟨report, htrace, _⟩ := main_trace w
      rw [htrace, tryBlock_readable w d name hdev hcap hname hgood]
      simp
    · obtain ⟨t, ht⟩ := rotateAndSave_head w name
        (if w.checkCmdLineFlag "output" = true then w.outputArgument
          else defaultResultFilename name)
      exact mem_main_of_rotate w d name hdev hcap hname hgood _ (by rw [ht]; simp)

/-- Witness of C2: a run whose input file cannot be opened, and one where it can. -/
theorem input_file_check_witness :
    (missingFileWorld.infileGood "data/Lena.pgm" = false ∧
      (main missingFileWorld).status = EXIT_FAILURE ∧
      (main missingFileWorld).trace.getLast? = some (.printUnableToOpen "data/Lena.pgm") ∧
      ∀ ev ∈ (main missingFileWorld).trace, ev.isImageCall = false) ∧
    (sampleWorld.infileGood "data/Lena.pgm" = true ∧
      (fileCheck sampleWorld "data/Lena.pgm").outcome = .value 0 ∧
      Event.printOpened "data/Lena.pgm" ∈ (main sampleWorld).trace ∧
      Event.loadImage "data/Lena.pgm" ∈ (main sampleWorld).trace) :=
  ⟨⟨rfl, (input_file_check missingFileWorld 0 "data/Lena.pgm" rfl rfl (by decide)).1 rfl⟩,
    ⟨rfl, (input_file_check sampleWorld 0 "data/Lena.pgm" rfl rfl (by decide)).2 rfl⟩⟩

/-- C6: with the "output" flag present the file `saveImage` writes is exactly the
string given for that flag, whatever the input file name; with the flag absent it is
the name derived from the input file name, that is the part of the input file name
before its last '.' (the whole of it when it has no '.') followed by "_rotate.pgm"; in
both cases the image is loaded from the input file name.  A run on a capable device
whose input file opens and in which the world answers no call with an exception does
load from that name and save under that name. -/
theorem output_filename_selection (w : World) (name : String)
    (hname : (sFilename w).outcome = .value name) :
    (w.checkCmdLineFlag "output" = true →
      (sResultFilename w name).outcome = .value w.outputArgument) ∧
    (w.checkCmdLineFlag "output" = false →
      (sResultFilename w name).outcome = .value (defaultResultFilename name)) ∧
    (∀ f image, Event.saveImage f image ∈ (main w).trace →
      (sResultFilename w name).outcome = .value f) ∧
    (∀ f, Event.loadImage f ∈ (main w).trace → f = name) ∧
    ((main w).status = EXIT_SUCCESS → w.checkCudaCapabilities 1 0 = true →
      Event.loadImage name ∈ (main w).trace ∧
      ∃ f image, Event.saveImage f image ∈ (main w).trace) ∧
    (w.checkCmdLineFlag "output" = false →
      ∀ p t : List Char, name.data = p ++ '.' :: t → '.' ∉ t →
        (sResultFilename w name).outcome = .value (String.mk p ++ "_rotate.pgm")) ∧
    (w.checkCmdLineFlag "output" = false → '.' ∉ name.data →
      (sResultFilename w name).outcome = .value (name ++ "_rotate.pgm")) ∧
    (w.checkCudaCapabilities 1 0 = true → w.infileGood name = true →
      (∀ ev ∈ (main w).trace, w.raises ev = none) →
      Event.loadImage name ∈ (main w).trace ∧
      (w.checkCmdLineFlag "output" = true →
        ∃ image, Event.saveImage w.outputArgument image ∈ (main w).trace) ∧
      (w.checkCmdLineFlag "output" = false →
        ∀ p t : List Char, name.data = p ++ '.' :: t → '.' ∉ t →
          ∃ image, Event.saveImage (String.mk p ++ "_rotate.pgm") image ∈ (main w).trace) ∧
      (w.checkCmdLineFlag "output" = false → '.' ∉ name.data →
        ∃ image, Event.saveImage (name ++ "_rotate.pgm") image ∈ (main w).trace)) := by
  have hsaved : w.checkCudaCapabilities 1 0 = true → w.infileGood name = true →
      (∀ ev ∈ (main w).trace, w.raises ev = none) →
      Event.loadImage name ∈ (main w).trace ∧
      ∃ image, Event.saveImage
        (if w.checkCmdLineFlag "output" = true then w.outputArgument
          else defaultResultFilename name) image ∈ (main w).trace := by
    intro hcap hgood hquiet
    obtain ⟨oHostSrc, src, oBoundingBox, dst, host, _, _, _, htrace⟩ :=
      main_complete w name hname hcap hgood hquiet
    refine ⟨by rw [htrace]; simp,
      ⟨⟨toUInt oBoundingBox.width, toUInt oBoundingBox.height⟩, host.1, host.2⟩, ?_⟩
    rw [htrace]
    simp
  refine ⟨?_, ?_, ?_, ?_, ?_, ?_, ?_, ?_⟩
  · intro hflag
    rw [sResultFilename_eq]
    simp [hflag]
  · intro hflag
    rw [sResultFilename_eq]
    simp [hflag]
  · intro f image hev
    obtain ⟨_, name', _, _, hname', _, hmem, _⟩ := mem_main_pipeline w _ hev (Or.inl rfl)
    rw [hname] at hname'
    cases hname'
    have hf := ((rotateAndSave_parameters w name _).2.2.2.2 f image hmem).1
    rw [sResultFilename_eq, hf]
  · intro f hev
    obtain ⟨_, name', _, _, hname', _, hmem, _⟩ := mem_main_pipeline w _ hev (Or.inl rfl)
    rw [hname] at hname'
    cases hname'
    exact (rotateAndSave_parameters w name _).1 f hmem
  · intro hstatus hcap
    rcases tryBlock_cases w with ⟨x, _, ht⟩ | ⟨d, _, hc, _⟩ | ⟨d, name', _, _, _, _, ht⟩ |
        ⟨d, name', hdev, _, hname', hgood, ht⟩
    · rw [(main_status w).2 x (by rw [ht])] at hstatus
      exact absurd hstatus (by decide)
    · rw [hcap] at hc
      cases hc
    · rw [(main_status w).1 _ (by rw [ht])] at hstatus
      exact absurd hstatus (by decide)
    · rw [hname] at hname'
      cases hname'
      rcases rotateAndSave_outcome w name
          (if w.checkCmdLineFlag "output" = true then w.outputArgument
            else defaultResultFilename name) with hexit | ⟨e, hthrown⟩
      · have hrot : ∀ e, (rotateAndSave w name
            (if w.checkCmdLineFlag "output" = true then w.outputArgument
              else defaultResultFilename name)).outcome ≠ .thrown e := by
          intro e he
          rw [hexit] at he
          cases he
        obtain ⟨oHostSrc, src, oBoundingBox, dst, host, _, _, hshape⟩ :=
          rotateAndSave_complete w name _ hrot
        refine ⟨mem_main_of_rotate w d name hdev hcap hname hgood _ (by rw [hshape]; simp),
          _, _, mem_main_of_rotate w d name hdev hcap hname hgood
            (.saveImage
              (if w.checkCmdLineFlag "output" = true then w.outputArgument
                else defaultResultFilename name)
              ⟨⟨toUInt oBoundingBox.width, toUInt oBoundingBox.height⟩, host.1, host.2⟩)
            (by rw [hshape]; simp)⟩
      · rw [(main_status w).2 e (by rw [ht]; exact hthrown)] at hstatus
        exact absurd hstatus (by decide)
  · intro hflag p t hp ht
    rw [sResultFilename_eq, ← defaultResultFilename_of_dot name p t hp ht]
    simp [hflag]
  · intro hflag hno
    rw [sResultFilename_eq, ← defaultResultFilename_of_no_dot name hno]
    simp [hflag]
  · intro hcap hgood hquiet
    obtain ⟨hl, image, himage⟩ := hsaved hcap hgood hquiet
    refine ⟨hl, ?_, ?_, ?_⟩
    · intro hflag
      rw [if_pos hflag] at himage
      exact ⟨image, himage⟩
    · intro hflag p t hp ht
      rw [hflag, defaultResultFilename_of_dot name p t hp ht] at himage
      exact ⟨image, by simpa using himage⟩
    · intro hflag hno
      rw [hflag, defaultResultFilename_of_no_dot name hno] at himage
      exact ⟨image, by simpa using himage⟩

/-- Witness of C6: the run with both flags loads "in.pgm" and writes "out.pgm"; the
run without flags loads "data/Lena.pgm" and writes "data/Lena_rotate.pgm"; the run on
"scan" writes "scan_rotate.pgm". -/
theorem output_filename_selection_witness :
    ((sFilename flagWorld).outcome = .value "in.pgm" ∧
      flagWorld.checkCmdLineFlag "output" = true ∧
      (sResultFilename flagWorld "in.pgm").outcome = .value "out.pgm" ∧
      (∀ ev ∈ (main flagWorld).trace, flagWorld.raises ev = none) ∧
      Event.saveImage "out.pgm" ⟨⟨725, 725⟩, 8192, 725⟩ ∈ (main flagWorld).trace ∧
      Event.loadImage "in.pgm" ∈ (main flagWorld).trace ∧
      ∃ image, Event.saveImage "out.pgm" image ∈ (main flagWorld).trace) ∧
    ((sFilename sampleWorld).outcome = .value "data/Lena.pgm" ∧
      sampleWorld.checkCmdLineFlag "output" = false ∧
      "data/Lena.pgm".data = "data/Lena".data ++ '.' :: "pgm".data ∧
      ("data/Lena" ++ "_rotate.pgm" : String) = "data/Lena_rotate.pgm" ∧
      (∀ ev ∈ (main sampleWorld).trace, sampleWorld.raises ev = none) ∧
      Event.saveImage "data/Lena_rotate.pgm" ⟨⟨725, 725⟩, 8192, 725⟩
        ∈ (main sampleWorld).trace ∧
      (sResultFilename sampleWorld "data/Lena.pgm").outcome
        = .value ("data/Lena" ++ "_rotate.pgm") ∧
      Event.loadImage "data/Lena.pgm" ∈ (main sampleWorld).trace ∧
      ∃ image, Event.saveImage ("data/Lena" ++ "_rotate.pgm") image
        ∈ (main sampleWorld).trace) ∧
    ((sFilename plainNameWorld).outcome = .value "scan" ∧
      plainNameWorld.checkCmdLineFlag "output" = false ∧
      '.' ∉ "scan".data ∧
      ("scan" ++ "_rotate.pgm" : String) = "scan_rotate.pgm" ∧
      (∀ ev ∈ (main plainNameWorld).trace, plainNameWorld.raises ev = none) ∧
      Event.saveImage "scan_rotate.pgm" ⟨⟨725, 725⟩, 8192, 725⟩
        ∈ (main plainNameWorld).trace ∧
      (sResultFilename plainNameWorld "scan").outcome = .value ("scan" ++ "_rotate.pgm") ∧
      ∃ image, Event.saveImage ("scan" ++ "_rotate.pgm") image
        ∈ (main plainNameWorld).trace) :=
  have hflagQuiet : ∀ ev ∈ (main flagWorld).trace, flagWorld.raises ev = none := by decide
  have hquiet : ∀ ev ∈ (main sampleWorld).trace, sampleWorld.raises ev = none := by decide
  have hplainQuiet : ∀ ev ∈ (main plainNameWorld).trace, plainNameWorld.raises ev = none := by
    decide
  have hf := output_filename_selection flagWorld "in.pgm" (by decide)
  have hs := output_filename_selection sampleWorld "data/Lena.pgm" (by decide)
  have hp := output_filename_selection plainNameWorld "scan" (by decide)
  ⟨⟨by decide, rfl, hf.1 rfl, hflagQuiet, by decide,
      (hf.2.2.2.2.2.2.2 rfl rfl hflagQuiet).1,
      (hf.2.2.2.2.2.2.2 rfl rfl hflagQuiet).2.1 rfl⟩,
    ⟨by decide, rfl, by decide, by decide, hquiet, by decide,
      hs.2.2.2.2.2.1 rfl "data/Lena".data "pgm".data (by decide) (by decide),
      (hs.2.2.2.2.2.2.2 rfl rfl hquiet).1,
      (hs.2.2.2.2.2.2.2 rfl rfl hquiet).2.2.1 rfl "data/Lena".data "pgm".data (by decide)
        (by decide)⟩,
    ⟨by decide, rfl, by decide, by decide, hplainQuiet, by decide,
      hp.2.2.2.2.2.2.1 rfl (by decide),
      (hp.2.2.2.2.2.2.2 rfl rfl hplainQuiet).2.2.2 rfl (by decide)⟩⟩

/-- C7: for every loaded image, of width w and height h as `int` values, both
`nppiGetRotateBound` and `nppiRotate_8u_C1R` receive the source rectangle {0, 0, w, h};
the angle is 45 degrees whatever the command line; the rotation centre is
(w / 2, h / 2) by truncating division; the destination device image is allocated with
the width and height of the bounding box that `nppiGetRotateBound` returned, and that
box is the destination rectangle; the saved host image has the size of the destination
device image.  For dimensions below 2^31 the `int` values are the dimensions
themselves.  In a run on a capable device whose input file opens and in which the world
answers no call with an exception, these calls are all made: the trace ends with load,
upload, bounding box, allocation, rotation from the uploaded buffer into the allocated
one, allocation of the host image, copy of the rotated device image into it, and the
save of that host image. -/
theorem rotation_call_parameters (w : World) (name : String) (oHostSrc : ImageCPU_8u_C1)
    (hname : (sFilename w).outcome = .value name) (hload : w.loadImage name = .ok oHostSrc) :
    (∀ roi a, Event.nppiGetRotateBound roi a ∈ (main w).trace →
      roi = ⟨0, 0, toInt oHostSrc.size.nWidth, toInt oHostSrc.size.nHeight⟩ ∧ a = 45) ∧
    (∀ args, Event.nppiRotate_8u_C1R args ∈ (main w).trace →
      args.oSrcROI = ⟨0, 0, toInt oHostSrc.size.nWidth, toInt oHostSrc.size.nHeight⟩ ∧
      args.nAngle = 45 ∧
      args.oRotationCenter =
        ⟨Int.tdiv (toInt oHostSrc.size.nWidth) 2, Int.tdiv (toInt oHostSrc.size.nHeight) 2⟩ ∧
      w.nppiGetRotateBound args.oSrcROI 45 = .ok args.oDstROI ∧
      Event.nppiGetRotateBound args.oSrcROI 45 ∈ (main w).trace ∧
      Event.newImageNPP (toUInt args.oDstROI.width) (toUInt args.oDstROI.height)
        ∈ (main w).trace) ∧
    (∀ n m, Event.newImageNPP n m ∈ (main w).trace →
      ∃ oBoundingBox,
        w.nppiGetRotateBound
          ⟨0, 0, toInt oHostSrc.size.nWidth, toInt oHostSrc.size.nHeight⟩ 45
            = .ok oBoundingBox ∧
        n = toUInt oBoundingBox.width ∧ m = toUInt oBoundingBox.height) ∧
    (∀ f image, Event.saveImage f image ∈ (main w).trace →
      Event.newImageNPP image.size.nWidth image.size.nHeight ∈ (main w).trace) ∧
    (oHostSrc.size.nWidth < 2 ^ 31 → oHostSrc.size.nHeight < 2 ^ 31 →
      toInt oHostSrc.size.nWidth = (oHostSrc.size.nWidth : Int) ∧
      toInt oHostSrc.size.nHeight = (oHostSrc.size.nHeight : Int) ∧
      Int.tdiv (toInt oHostSrc.size.nWidth) 2 = ((oHostSrc.size.nWidth / 2 : Nat) : Int) ∧
      Int.tdiv (toInt oHostSrc.size.nHeight) 2 = ((oHostSrc.size.nHeight / 2 : Nat) : Int)) ∧
    (∀ oBoundingBox : NppiRect,
      0 ≤ oBoundingBox.width → oBoundingBox.width < 2 ^ 31 →
      0 ≤ oBoundingBox.height → oBoundingBox.height < 2 ^ 31 →
      ((toUInt oBoundingBox.width : Nat) : Int) = oBoundingBox.width ∧
      ((toUInt oBoundingBox.height : Nat) : Int) = oBoundingBox.height) ∧
    (w.checkCudaCapabilities 1 0 = true → w.infileGood name = true →
      (∀ ev ∈ (main w).trace, w.raises ev = none) →
      ∃ (before : List Event) (sResult : String) (src dst host : Nat × Nat)
          (oBoundingBox : NppiRect),
        w.nppiGetRotateBound
          ⟨0, 0, toInt oHostSrc.size.nWidth, toInt oHostSrc.size.nHeight⟩ 45
            = .ok oBoundingBox ∧
        (main w).trace = before ++
          [.loadImage name,
            .uploadImage oHostSrc,
            .nppiGetRotateBound
              ⟨0, 0, toInt oHostSrc.size.nWidth, toInt oHostSrc.size.nHeight⟩ 45,
            .newImageNPP (toUInt oBoundingBox.width) (toUInt oBoundingBox.height),
            .nppiRotate_8u_C1R
              ⟨src.1, src.2,
                ⟨0, 0, toInt oHostSrc.size.nWidth, toInt oHostSrc.size.nHeight⟩,
                dst.1, dst.2, oBoundingBox, 45,
                ⟨Int.tdiv (toInt oHostSrc.size.nWidth) 2,
                  Int.tdiv (toInt oHostSrc.size.nHeight) 2⟩,
                .NPPI_INTER_NN⟩,
            .newImageCPU ⟨toUInt oBoundingBox.width, toUInt oBoundingBox.height⟩,
            .copyTo ⟨⟨toUInt oBoundingBox.width, toUInt oBoundingBox.height⟩, dst.1, dst.2⟩
              host.1 host.2,
            .saveImage sResult
              ⟨⟨toUInt oBoundingBox.width, toUInt oBoundingBox.height⟩, host.1, host.2⟩,
            .printSaved sResult,
            .nppiFree src.1,
            .nppiFree dst.1]) := by
  have key : ∀ ev, ev ∈ (main w).trace → ev.isImageCall = true →
      ∃ d, w.findCudaDevice = .ok d ∧ w.checkCudaCapabilities 1 0 = true ∧
        w.infileGood name = true ∧
        ev ∈ (rotateAndSave w name
          (if w.checkCmdLineFlag "output" = true then w.outputArgument
            else defaultResultFilename name)).trace := by
    intro ev hev hkind
    obtain ⟨d, name', hdev, hcap, hname', hgood, hmem, _⟩ :=
      mem_main_pipeline w ev hev (Or.inl hkind)
    rw [hname] at hname'
    cases hname'
    exact ⟨d, hdev, hcap, hgood, hmem⟩
  have hangle : angle = 45 := rfl
  have hpar := rotateAndSave_parameters w name
    (if w.checkCmdLineFlag "output" = true then w.outputArgument
      else defaultResultFilename name)
  refine ⟨?_, ?_, ?_, ?_, ?_, ?_, ?_⟩
  · intro roi a hev
    obtain ⟨d, hdev, hcap, hgood, hmem⟩ := key _ hev rfl
    obtain ⟨img, himg, hroi, ha⟩ := hpar.2.1 roi a hmem
    rw [hload] at himg
    cases himg
    exact ⟨hroi, by rw [ha, hangle]⟩
  · intro args hev
    obtain ⟨d, hdev, hcap, hgood, hmem⟩ := key _ hev rfl
    obtain ⟨img, himg, hbound, hroi, ha, hcentre, _, hb, hnew⟩ := hpar.2.2.2.1 args hmem
    rw [hload] at himg
    cases himg
    rw [hangle] at hbound ha hb
    refine ⟨hroi, ha, hcentre, by rw [hroi]; exact hbound,
      mem_main_of_rotate w d name hdev hcap hname hgood _ hb,
      mem_main_of_rotate w d name hdev hcap hname hgood _ hnew⟩
  · intro n m hev
    obtain ⟨d, hdev, hcap, hgood, hmem⟩ := key _ hev rfl
    obtain ⟨img, oBoundingBox, himg, hbound, hn, hm⟩ := hpar.2.2.1 n m hmem
    rw [hload] at himg
    cases himg
    rw [hangle] at hbound
    exact ⟨oBoundingBox, hbound, hn, hm⟩
  · intro f image hev
    obtain ⟨d, hdev, hcap, hgood, hmem⟩ := key _ hev rfl
    exact mem_main_of_rotate w d name hdev hcap hname hgood _
      (hpar.2.2.2.2 f image hmem).2
  · intro hw hh
    rw [toInt_of_lt _ hw, toInt_of_lt _ hh]
    refine ⟨rfl, rfl, ?_, ?_⟩
    · rw [Int.tdiv_eq_ediv (by omega) (by norm_num)]
      omega
    · rw [Int.tdiv_eq_ediv (by omega) (by norm_num)]
      omega
  · intro oBoundingBox h1 h2 h3 h4
    exact ⟨toUInt_of_nonneg _ h1 h2, toUInt_of_nonneg _ h3 h4⟩
  · intro hcap hgood hquiet
    obtain ⟨img, src, oBoundingBox, dst, host, himg, hbound, _, htrace⟩ :=
      main_complete w name hname hcap hgood hquiet
    rw [hload] at himg
    cases himg
    rw [hangle] at hbound htrace
    exact ⟨_, _, src, dst, host, oBoundingBox, hbound, htrace⟩

/-- Witness of C7: the sample run on a 512 x 512 image with bounding box 725 x 725; the
rotation writes into the 725 x 725 device image at 131072, which is copied to the host
image at 8192, and that host image is saved. -/
theorem rotation_call_parameters_witness :
    (sFilename sampleWorld).outcome = .value "data/Lena.pgm" ∧
      sampleWorld.loadImage "data/Lena.pgm" = .ok ⟨⟨512, 512⟩, 4096, 512⟩ ∧
      Event.nppiRotate_8u_C1R
        ⟨65536, 512, ⟨0, 0, 512, 512⟩, 131072, 1024, ⟨-106, -106, 725, 725⟩, 45, ⟨256, 256⟩,
          .NPPI_INTER_NN⟩ ∈ (main sampleWorld).trace ∧
      Event.nppiGetRotateBound ⟨0, 0, 512, 512⟩ 45 ∈ (main sampleWorld).trace ∧
      Event.newImageNPP 725 725 ∈ (main sampleWorld).trace ∧
      Event.saveImage "data/Lena_rotate.pgm" ⟨⟨725, 725⟩, 8192, 725⟩
        ∈ (main sampleWorld).trace ∧
      Event.copyTo ⟨⟨725, 725⟩, 131072, 1024⟩ 8192 725 ∈ (main sampleWorld).trace ∧
      (∀ ev ∈ (main sampleWorld).trace, sampleWorld.raises ev = none) ∧
      ∃ (before : List Event) (sResult : String) (src dst host : Nat × Nat)
          (oBoundingBox : NppiRect),
        sampleWorld.nppiGetRotateBound ⟨0, 0, toInt 512, toInt 512⟩ 45 = .ok oBoundingBox ∧
        (main sampleWorld).trace = before ++
          [.loadImage "data/Lena.pgm",
            .uploadImage ⟨⟨512, 512⟩, 4096, 512⟩,
            .nppiGetRotateBound ⟨0, 0, toInt 512, toInt 512⟩ 45,
            .newImageNPP (toUInt oBoundingBox.width) (toUInt oBoundingBox.height),
            .nppiRotate_8u_C1R
              ⟨src.1, src.2, ⟨0, 0, toInt 512, toInt 512⟩, dst.1, dst.2, oBoundingBox, 45,
                ⟨Int.tdiv (toInt 512) 2, Int.tdiv (toInt 512) 2⟩, .NPPI_INTER_NN⟩,
            .newImageCPU ⟨toUInt oBoundingBox.width, toUInt oBoundingBox.height⟩,
            .copyTo ⟨⟨toUInt oBoundingBox.width, toUInt oBoundingBox.height⟩, dst.1, dst.2⟩
              host.1 host.2,
            .saveImage sResult
              ⟨⟨toUInt oBoundingBox.width, toUInt oBoundingBox.height⟩, host.1, host.2⟩,
            .printSaved sResult,
            .nppiFree src.1,
            .nppiFree dst.1] :=
  have hrot : Event.nppiRotate_8u_C1R
      ⟨65536, 512, ⟨0, 0, 512, 512⟩, 131072, 1024, ⟨-106, -106, 725, 725⟩, 45, ⟨256, 256⟩,
        .NPPI_INTER_NN⟩ ∈ (main sampleWorld).trace := by decide
  have hsave : Event.saveImage "data/Lena_rotate.pgm" ⟨⟨725, 725⟩, 8192, 725⟩
      ∈ (main sampleWorld).trace := by decide
  have hquiet : ∀ ev ∈ (main sampleWorld).trace, sampleWorld.raises ev = none := by decide
  have h := rotation_call_parameters sampleWorld "data/Lena.pgm" ⟨⟨512, 512⟩, 4096, 512⟩
    (by decide) rfl
  ⟨by decide, rfl, hrot, (h.2.1 _ hrot).2.2.2.2.1, (h.2.2.2.1 _ _ hsave), hsave, by decide,
    hquiet, h.2.2.2.2.2.2 rfl rfl hquiet⟩

end ImageRotationNPP
